import Mathlib

/-!
# Hybrid MySQL + MongoDB feed application (`src/app.js`)

A shallow embedding of the two parts of `app.js` that carry logic:

* the federation step of `getHybridUserFeed` (the `posts.map` that joins the
  rows of the `Post` table with the documents of the `ActivityFeed`
  collection), and
* the connection lifecycle: `initializeDatabases`, `executeHybridQueries`,
  `closeDatabaseConnections` and the `try / catch / finally` of
  `runApplication`.

JavaScript strings are sequences of UTF-16 code units; a `Char` of a Lean
`String` stands for one code unit here, so `length` and `substring` count the
same things as in the source.  The outside world (the two database servers) is
a record of the outcomes of the calls the program makes; the program is a
function from that record to a result and a trace of the calls it made.
-/

namespace HybridApp

/-! ## Data model -/

/-- A row of `SELECT id, content, user_id, created_at FROM Post`. -/
structure Post where
  id : Int
  content : String
  user_id : Int
  created_at : Int
  deriving DecidableEq, Repr

/-- A document of the `ActivityFeed` collection (see `mongo_setup.js`).
`reference_id = none` is a document without that field: reading it gives
`undefined`. -/
structure Activity where
  user_id : Int
  activity_type : String
  reference_id : Option Int
  deriving DecidableEq, Repr

/-- An element of `hybridFeed`, the object literal built in `getHybridUserFeed`. -/
structure FeedItem where
  post_id : Int
  content : String
  created_at : Int
  activity_count : Nat
  activity_types : String
  deriving DecidableEq, Repr

/-! ## JavaScript string and array primitives used by the federation step -/

/-- The method `String.prototype.substring(start, end)` for non-negative integer arguments:
both are clamped to the length, the smaller is the start, the larger the end. -/
def substring (s : String) (start finish : Nat) : String :=
  let len := s.data.length
  let a := min start len
  let b := min finish len
  let lo := min a b
  let hi := max a b
  String.mk ((s.data.drop lo).take (hi - lo))

/-- The loop of `Array.prototype.join`: `R` is the string built so far, `k` the
index of the next element; the separator goes before every element but the
first. -/
def joinLoop (sep : String) : String → Nat → List String → String
  | R, _, [] => R
  | R, k, x :: xs => joinLoop sep ((if k > 0 then R ++ sep else R) ++ x) (k + 1) xs

/-- The method `Array.prototype.join(sep)` on an array of strings. -/
def join (xs : List String) (sep : String) : String :=
  joinLoop sep "" 0 xs

/-! ## The federation step of `getHybridUserFeed` -/

/-- The test `a.reference_id === post.id`: strict equality of the (possibly absent)
field with the number `post.id`. -/
def strictEq (ref : Option Int) (id : Int) : Bool :=
  match ref with
  | some r => r == id
  | none => false

/-- The array `activities.filter(a => a.reference_id === post.id)`. -/
def relatedActivities (activities : List Activity) (post : Post) : List Activity :=
  activities.filter (fun a => strictEq a.reference_id post.id)

/-- The expression `post.content.substring(0, 50) + '...'`. -/
def truncateContent (content : String) : String :=
  substring content 0 50 ++ "..."

/-- The body of the arrow function given to `posts.map`. -/
def feedItem (activities : List Activity) (post : Post) : FeedItem :=
  let related := relatedActivities activities post
  { post_id := post.id
    content := truncateContent post.content
    created_at := post.created_at
    activity_count := related.length
    activity_types := join (related.map (fun a => a.activity_type)) ", " }

/-- The array `hybridFeed = posts.map(post => ...)`. -/
def hybridFeed (posts : List Post) (activities : List Activity) : List FeedItem :=
  posts.map (feedItem activities)

/-! ## The outside world and the trace of a run -/

/-- A value a rejected promise is rejected with. -/
structure JSError where
  message : String
  deriving DecidableEq, Repr

/-- The object `mysql.createConnection` resolves to. -/
structure MySqlConnection where
  deriving DecidableEq, Repr

/-- The object `new MongoClient(mongoUri, ...)` constructs. -/
structure MongoClient where
  deriving DecidableEq, Repr

/-- The object `mongoClient.db(CONFIG.mongodb.database)` returns. -/
structure Db where
  deriving DecidableEq, Repr

/-- A row or document handed to `console.table` by the four store-native
queries; its fields play no part in the control flow. -/
abbrev Row := String

/-- The calls `app.js` makes on the two drivers, each an awaited promise. -/
inductive Call where
  | createConnection
  | connect
  | timelineQuery
  | metricsQuery
  | activityFeedAggregate
  | preferencesFind
  | postsQuery
  | activitiesFind (postIds : List Int)
  | mysqlEnd
  | mongoClose
  deriving DecidableEq, Repr

/-- What a run does that can be observed from outside, in order. -/
inductive Effect where
  | call (c : Call)
  | log (msg : String)
  | error (msg : String) (e : JSError)
  | table (rows : List Row)
  | feedTable (items : List FeedItem)
  deriving DecidableEq, Repr

/-- The two servers, as the outcome of every call the program can make:
`Except.ok` is a promise that resolves, `Except.error` one that rejects. -/
structure World where
  createConnection : Except JSError MySqlConnection
  connect : Except JSError Unit
  timeline : Except JSError (List Row)
  metrics : Except JSError (List Row)
  activities : Except JSError (List Row)
  darkThemeUsers : Except JSError (List Row)
  posts : Except JSError (List Post)
  find : List Int → Except JSError (List Activity)
  mysqlEnd : Except JSError Unit
  mongoClose : Except JSError Unit

/-- The completion of an `async` function together with the effects it had:
`outcome` is the value the returned promise resolves to or the error it
rejects with. -/
structure Run (α : Type) where
  outcome : Except JSError α
  trace : List Effect

/-- Sequencing of awaited steps: a rejection skips the rest. -/
def Run.bind {α β : Type} (m : Run α) (f : α → Run β) : Run β :=
  match m.outcome with
  | Except.ok a => ⟨(f a).outcome, m.trace ++ (f a).trace⟩
  | Except.error e => ⟨Except.error e, m.trace⟩

instance : Monad Run where
  pure a := ⟨Except.ok a, []⟩
  bind := Run.bind

/-- An awaited driver call with the outcome the world gives it. -/
def await {α : Type} (c : Call) (outcome : Except JSError α) : Run α :=
  ⟨outcome, [Effect.call c]⟩

/-- The call `console.log(msg)`. -/
def log (msg : String) : Run Unit :=
  ⟨Except.ok (), [Effect.log msg]⟩

/-- The call `console.table(rows)`. -/
def table (rows : List Row) : Run Unit :=
  ⟨Except.ok (), [Effect.table rows]⟩

/-- The call `console.table(hybridFeed)`. -/
def feedTable (items : List FeedItem) : Run Unit :=
  ⟨Except.ok (), [Effect.feedTable items]⟩

/-- A synchronous computation inside an `async` function. -/
def completion {α : Type} (r : Except JSError α) : Run α :=
  ⟨r, []⟩

/-- The completion of the federation step: a JavaScript expression either
yields a value or throws.  The step has no `throw` and calls nothing that
throws on rows and documents of the shapes above, so it completes normally. -/
def hybridFeedCompletion (posts : List Post) (activities : List Activity) :
    Except JSError (List FeedItem) :=
  Except.ok (hybridFeed posts activities)

/-! ## The functions of `app.js` -/

/-- The call `mongoClient.db(name)`; it does no input or output. -/
def MongoClient.db (_ : MongoClient) : Db := {}

/-- The function `initializeDatabases`: MySQL first, then MongoDB.  Building
`mongoUri` and constructing the client do no input or output. -/
def initializeDatabases (w : World) : Run (MySqlConnection × MongoClient) := do
  let mysqlConn ← await Call.createConnection w.createConnection
  log "✅ MySQL connected successfully"
  let mongoClient : MongoClient := {}
  await Call.connect w.connect
  log "✅ MongoDB connected successfully"
  return (mysqlConn, mongoClient)

/-- The function `getUserTimeline`. -/
def getUserTimeline (w : World) (_ : MySqlConnection) : Run Unit := do
  let timeline ← await Call.timelineQuery w.timeline
  log "📜 User Timeline (MySQL):"
  table timeline

/-- The function `getPostEngagementMetrics`. -/
def getPostEngagementMetrics (w : World) (_ : MySqlConnection) : Run Unit := do
  let metrics ← await Call.metricsQuery w.metrics
  log "👍 Post Engagement Metrics (MySQL):"
  table metrics

/-- The function `getUserActivityFeed`. -/
def getUserActivityFeed (w : World) (_ : Db) : Run Unit := do
  let activities ← await Call.activityFeedAggregate w.activities
  log "📱 User Activity Feed (MongoDB):"
  table activities

/-- The function `searchUserPreferences`. -/
def searchUserPreferences (w : World) (_ : Db) : Run Unit := do
  let darkThemeUsers ← await Call.preferencesFind w.darkThemeUsers
  log "🎨 Users with Dark Theme Preference (MongoDB):"
  table darkThemeUsers

/-- The function `getHybridUserFeed`. -/
def getHybridUserFeed (w : World) (_ : MySqlConnection) (_ : Db) : Run Unit := do
  let posts ← await Call.postsQuery w.posts
  let postIds := posts.map (fun post => post.id)
  let activities ← await (Call.activitiesFind postIds) (w.find postIds)
  let hybridFeed ← completion (hybridFeedCompletion posts activities)
  log "🔄 Hybrid Feed (MySQL + MongoDB):"
  feedTable hybridFeed

/-- The function `executeHybridQueries`. -/
def executeHybridQueries (w : World) (mysqlConn : MySqlConnection) (mongoDb : Db) :
    Run Unit := do
  log "\n🔍 Executing hybrid database queries...\n"
  getUserTimeline w mysqlConn
  getPostEngagementMetrics w mysqlConn
  getUserActivityFeed w mongoDb
  searchUserPreferences w mongoDb
  getHybridUserFeed w mysqlConn mongoDb

/-- The function `closeDatabaseConnections`; `none` is `null`. -/
def closeDatabaseConnections (w : World) (mysqlConn : Option MySqlConnection)
    (mongoClient : Option MongoClient) : Run Unit := do
  if mysqlConn.isSome then
    await Call.mysqlEnd w.mysqlEnd
    log "🔌 MySQL connection closed"
  if mongoClient.isSome then
    await Call.mongoClose w.mongoClose
    log "🔌 MongoDB connection closed"
  log "🏁 Application finished successfully"

/-- The `catch` and `finally` blocks of `runApplication` after a `try` block
that completed as `body`: `catch` logs and rethrows the error, `finally` runs
`cleanup` in every case, and an error of `cleanup` replaces the completion of
the `try`/`catch`. -/
def catchFinally (body : Run Unit) (cleanup : Run Unit) : Run Unit :=
  let caught : List Effect :=
    match body.outcome with
    | Except.error e => [Effect.error "❌ Application error:" e]
    | Except.ok _ => []
  match cleanup.outcome with
  | Except.ok _ => ⟨body.outcome, body.trace ++ caught ++ cleanup.trace⟩
  | Except.error e => ⟨Except.error e, body.trace ++ caught ++ cleanup.trace⟩

/-- The function `runApplication`.  The locals `mysqlConnection` and `mongoClient` start as
`null` and are assigned only after `initializeDatabases` has resolved, so the
`finally` block sees both `null` when it rejects. -/
def runApplication (w : World) : Run Unit :=
  let init := initializeDatabases w
  match init.outcome with
  | Except.error e =>
    catchFinally ⟨Except.error e, init.trace⟩ (closeDatabaseConnections w none none)
  | Except.ok (mysqlConn, mongoDbClient) =>
    let queries := executeHybridQueries w mysqlConn mongoDbClient.db
    catchFinally ⟨queries.outcome, init.trace ++ queries.trace⟩
      (closeDatabaseConnections w (some mysqlConn) (some mongoDbClient))

/-! ## Handles held after a run -/

/-- The release calls. -/
def isRelease : Effect → Bool
  | Effect.call Call.mysqlEnd => true
  | Effect.call Call.mongoClose => true
  | _ => false

/-- Whether an outcome is a resolved promise. -/
def resolved {α : Type} (r : Except JSError α) : Bool :=
  match r with
  | Except.ok _ => true
  | Except.error _ => false

/-- The MySQL handle is live after a run with trace `t`: the connection was
opened and no `end()` on it has resolved. -/
def mysqlLive (w : World) (t : List Effect) : Bool :=
  (t.contains (Effect.call Call.createConnection) && resolved w.createConnection)
    && !(t.contains (Effect.call Call.mysqlEnd) && resolved w.mysqlEnd)

/-- The MongoDB handle is live after a run with trace `t`: `connect()` resolved
and no `close()` on it has resolved. -/
def mongoLive (w : World) (t : List Effect) : Bool :=
  (t.contains (Effect.call Call.connect) && resolved w.connect)
    && !(t.contains (Effect.call Call.mongoClose) && resolved w.mongoClose)

/-! ## Example worlds -/

/-- Both servers answer every call. -/
def healthyWorld : World where
  createConnection := Except.ok {}
  connect := Except.ok ()
  timeline := Except.ok []
  metrics := Except.ok []
  activities := Except.ok []
  darkThemeUsers := Except.ok []
  posts := Except.ok [⟨1, "Hello world! This is my first post.", 1, 0⟩]
  find := fun _ => Except.ok [⟨1, "post_created", some 1⟩, ⟨2, "post_liked", some 1⟩]
  mysqlEnd := Except.ok ()
  mongoClose := Except.ok ()

/-- MySQL accepts the connection, MongoDB refuses it. -/
def mongoDownWorld : World :=
  { healthyWorld with connect := Except.error ⟨"MongoServerSelectionError"⟩ }

/-- Both connections open, the engagement query is rejected. -/
def metricsFailWorld : World :=
  { healthyWorld with metrics := Except.error ⟨"ER_NO_SUCH_TABLE"⟩ }

/-- Both connections open, every query answers, `mysqlConn.end()` rejects. -/
def endFailsWorld : World :=
  { healthyWorld with mysqlEnd := Except.error ⟨"PROTOCOL_CONNECTION_LOST"⟩ }

/-! ## Facts about the primitives -/

theorem strictEq_iff (ref : Option Int) (id : Int) :
    strictEq ref id = true ↔ ref = some id := by
  cases ref <;> simp [strictEq]

theorem joinLoop_succ (sep : String) (xs : List String) (R : String) (k : Nat) :
    joinLoop sep R (k + 1) xs = String.intercalate.go R sep xs := by
  induction xs generalizing R k with
  | nil => simp [joinLoop, String.intercalate.go]
  | cons x xs ih => simp [joinLoop, String.intercalate.go, ih]

theorem join_eq_intercalate (xs : List String) (sep : String) :
    join xs sep = String.intercalate sep xs := by
  cases xs with
  | nil => simp [join, joinLoop, String.intercalate]
  | cons x xs =>
    have h : ("" : String) ++ x = x := by
      apply String.ext
      simp
    simp [join, joinLoop, String.intercalate, joinLoop_succ, h]

theorem substring_zero_data (s : String) (n : Nat) :
    (substring s 0 n).data = s.data.take n := by
  simp [substring, List.take_take]

theorem truncateContent_data (s : String) :
    (truncateContent s).data = s.data.take 50 ++ ['.', '.', '.'] := by
  simp [truncateContent, substring_zero_data]

theorem truncateContent_length (s : String) :
    (truncateContent s).length = min 50 s.length + 3 := by
  show (truncateContent s).data.length = min 50 s.data.length + 3
  rw [truncateContent_data, List.length_append, List.length_take]
  rfl

theorem relatedActivities_length (activities : List Activity) (post : Post) :
    (relatedActivities activities post).length
      = activities.countP (fun a => decide (a.reference_id = some post.id)) := by
  unfold relatedActivities
  rw [List.countP_eq_length_filter]
  congr 2
  funext a
  rw [Bool.eq_iff_iff]
  simp [strictEq_iff]

theorem sum_map_indicator {α : Type} (l : List α) (q : α → Bool) :
    (l.map (fun a => if q a then 1 else 0)).sum = l.countP q := by
  induction l with
  | nil => rfl
  | cons a l ih =>
    by_cases h : q a = true
    · simp [List.countP_cons, h, ih]; omega
    · simp [List.countP_cons, h, ih]

theorem sum_map_add_indicator {α : Type} (l : List α) (f : α → Nat) (q : α → Bool) :
    (l.map (fun a => (if q a then 1 else 0) + f a)).sum = l.countP q + (l.map f).sum := by
  induction l with
  | nil => rfl
  | cons a l ih =>
    by_cases h : q a = true
    · simp [List.countP_cons, h, ih]; omega
    · simp [List.countP_cons, h, ih]; omega

/-- Summed over the feed, the counts are the number of pairs of a post and an
activity that refers to it. -/
theorem sum_activity_count_pairs (posts : List Post) (activities : List Activity) :
    ((hybridFeed posts activities).map (fun item => item.activity_count)).sum
      = (activities.map (fun a =>
          posts.countP (fun p => decide (a.reference_id = some p.id)))).sum := by
  induction posts with
  | nil => simp [hybridFeed]
  | cons p ps ih =>
    have ih1 : ((ps.map (feedItem activities)).map (fun item => item.activity_count)).sum
        = (activities.map (fun a =>
            ps.countP (fun p => decide (a.reference_id = some p.id)))).sum := ih
    have hhead : (feedItem activities p).activity_count
        = activities.countP (fun a => decide (a.reference_id = some p.id)) :=
      relatedActivities_length activities p
    have hcons : (fun a : Activity =>
          (p :: ps).countP (fun p => decide (a.reference_id = some p.id)))
        = (fun a : Activity => (if decide (a.reference_id = some p.id) then 1 else 0)
            + ps.countP (fun p => decide (a.reference_id = some p.id))) := by
      funext a
      rw [List.countP_cons]
      omega
    show (((p :: ps).map (feedItem activities)).map (fun item => item.activity_count)).sum = _
    rw [hcons, sum_map_add_indicator, List.map_cons, List.map_cons, List.sum_cons, ih1, hhead]

theorem countP_nodup_ids (posts : List Post) (ref : Option Int)
    (h : (posts.map (fun p => p.id)).Nodup) :
    posts.countP (fun p => decide (ref = some p.id))
      = if posts.any (fun p => decide (ref = some p.id)) then 1 else 0 := by
  induction posts with
  | nil => rfl
  | cons p ps ih =>
    rw [List.map_cons, List.nodup_cons] at h
    have ih1 := ih h.2
    by_cases hp : ref = some p.id
    · have hnone : ps.any (fun q => decide (ref = some q.id)) = false := by
        rw [List.any_eq_false]
        intro q hq hq1
        have hq2 : ref = some q.id := by simpa using hq1
        have hid : q.id = p.id := by
          rw [hp] at hq2
          exact (Option.some.inj hq2).symm
        exact h.1 (List.mem_map.mpr ⟨q, hq, hid⟩)
      rw [hnone] at ih1
      simpa [List.countP_cons, hp] using ih1
    · simpa [List.countP_cons, hp] using ih1

/-! ## The federation step: counts, order, kinds -/

/-- C1: every item of the feed has `activity_count` equal to the number of
activities of the input whose `reference_id` is the item's `post_id`; each such
activity is counted once. -/
theorem activity_count_exact (posts : List Post) (activities : List Activity)
    (item : FeedItem) (h : item ∈ hybridFeed posts activities) :
    item.activity_count
      = activities.countP (fun a => decide (a.reference_id = some item.post_id)) := by
  obtain ⟨post, _, rfl⟩ := List.mem_map.mp h
  exact relatedActivities_length activities post

/-- Instance of C1 on the three documents of `mongo_setup.js` and two posts. -/
theorem activity_count_exact_witness :
    (⟨1, "Hello world! This is my first post....", 0, 2, "post_created, post_liked"⟩ : FeedItem)
        ∈ hybridFeed
            [⟨1, "Hello world! This is my first post.", 1, 0⟩, ⟨2, "Welcome", 2, 0⟩]
            [⟨1, "post_created", some 1⟩, ⟨2, "post_liked", some 1⟩,
              ⟨2, "post_created", some 2⟩]
      ∧ (2 : Nat) = List.countP (fun a => decide (a.reference_id = some 1))
            ([⟨1, "post_created", some 1⟩, ⟨2, "post_liked", some 1⟩,
              ⟨2, "post_created", some 2⟩] : List Activity) :=
  ⟨by decide,
   activity_count_exact
     [⟨1, "Hello world! This is my first post.", 1, 0⟩, ⟨2, "Welcome", 2, 0⟩]
     [⟨1, "post_created", some 1⟩, ⟨2, "post_liked", some 1⟩, ⟨2, "post_created", some 2⟩]
     ⟨1, "Hello world! This is my first post....", 0, 2, "post_created, post_liked"⟩
     (by decide)⟩

/-- C2 as stated fails: when two posts of the input carry the same id, an
activity that refers to it is counted in both items, so the sum (2) exceeds the
number of activities that refer to a post of the input (1). -/
theorem count_invariant_fails_on_repeated_id :
    ¬ ∀ (posts : List Post) (activities : List Activity),
        ((hybridFeed posts activities).map (fun item => item.activity_count)).sum
          = activities.countP (fun a =>
              posts.any (fun p => decide (a.reference_id = some p.id))) := by
  intro h
  have h1 := h [⟨1, "a", 1, 0⟩, ⟨1, "b", 1, 5⟩] [⟨1, "post_created", some 1⟩]
  revert h1
  decide

/-- C2, amended: when the posts of the input have pairwise distinct ids, the
sum of `activity_count` over the feed is the number of activities whose
`reference_id` is the id of some post of the input. -/
theorem count_invariant (posts : List Post) (activities : List Activity)
    (hids : (posts.map (fun p => p.id)).Nodup) :
    ((hybridFeed posts activities).map (fun item => item.activity_count)).sum
      = activities.countP (fun a =>
          posts.any (fun p => decide (a.reference_id = some p.id))) := by
  rw [sum_activity_count_pairs, ← sum_map_indicator]
  congr 1
  apply List.map_congr_left
  intro a _
  exact countP_nodup_ids posts a.reference_id hids

/-- Instance of the amended C2: two posts, three activities, one of which
refers to no post of the input. -/
theorem count_invariant_witness :
    (([⟨1, "a", 1, 0⟩, ⟨2, "b", 1, 5⟩] : List Post).map (fun p => p.id)).Nodup
      ∧ ((hybridFeed [⟨1, "a", 1, 0⟩, ⟨2, "b", 1, 5⟩]
            [⟨1, "post_created", some 1⟩, ⟨2, "post_liked", some 1⟩,
              ⟨2, "post_created", some 3⟩]).map (fun item => item.activity_count)).sum
          = List.countP (fun a =>
              ([⟨1, "a", 1, 0⟩, ⟨2, "b", 1, 5⟩] : List Post).any
                (fun p => decide (a.reference_id = some p.id)))
              ([⟨1, "post_created", some 1⟩, ⟨2, "post_liked", some 1⟩,
                ⟨2, "post_created", some 3⟩] : List Activity) :=
  ⟨by decide,
   count_invariant [⟨1, "a", 1, 0⟩, ⟨2, "b", 1, 5⟩]
     [⟨1, "post_created", some 1⟩, ⟨2, "post_liked", some 1⟩, ⟨2, "post_created", some 3⟩]
     (by decide)⟩

/-- C3: the feed has one item per post, and the item at each position carries
the id and the `created_at` of the post at that position, whatever the
activities are. -/
theorem feed_keeps_post_order (posts : List Post) (activities : List Activity) :
    (hybridFeed posts activities).length = posts.length
      ∧ ∀ i : Nat,
          ((hybridFeed posts activities)[i]?).map (fun item => (item.post_id, item.created_at))
            = (posts[i]?).map (fun post => (post.id, post.created_at)) := by
  refine ⟨by simp [hybridFeed], fun i => ?_⟩
  simp only [hybridFeed, List.getElem?_map]
  cases posts[i]? <;> simp [feedItem]

/-- C4: `activity_types` is the `activity_type` of exactly the activities whose
`reference_id` is the post id, in the order of the input, separated by ", ",
repeated kinds kept; it is empty when no activity matches.  On the activities
[ref 1 post_created, ref 1 post_liked, ref 3 post_created] post 1 gets
"post_created, post_liked" and post 2 gets "". -/
theorem activity_types_joined (activities : List Activity) (post : Post) :
    (feedItem activities post).activity_types
        = String.intercalate ", "
            ((activities.filter (fun a => decide (a.reference_id = some post.id))).map
              (fun a => a.activity_type))
      ∧ ((∀ a ∈ activities, a.reference_id ≠ some post.id) →
          (feedItem activities post).activity_types = "")
      ∧ (feedItem [⟨1, "post_created", some 1⟩, ⟨2, "post_liked", some 1⟩,
            ⟨2, "post_created", some 3⟩] ⟨1, "x", 1, 0⟩).activity_types
          = "post_created, post_liked"
      ∧ (feedItem [⟨1, "post_created", some 1⟩, ⟨2, "post_liked", some 1⟩,
            ⟨2, "post_created", some 3⟩] ⟨2, "short", 1, 0⟩).activity_types = ""
      ∧ (feedItem [⟨1, "post_liked", some 1⟩, ⟨2, "post_liked", some 1⟩]
            ⟨1, "x", 1, 0⟩).activity_types = "post_liked, post_liked" := by
  have hfilter : relatedActivities activities post
      = activities.filter (fun a => decide (a.reference_id = some post.id)) := by
    unfold relatedActivities
    congr 1
    funext a
    rw [Bool.eq_iff_iff]
    simp [strictEq_iff]
  have hjoin : (feedItem activities post).activity_types
      = String.intercalate ", "
          ((activities.filter (fun a => decide (a.reference_id = some post.id))).map
            (fun a => a.activity_type)) := by
    show join ((relatedActivities activities post).map (fun a => a.activity_type)) ", " = _
    rw [join_eq_intercalate, hfilter]
  refine ⟨hjoin, ?_, by decide, by decide, by decide⟩
  intro hnone
  have hempty : activities.filter (fun a => decide (a.reference_id = some post.id)) = [] := by
    rw [List.filter_eq_nil_iff]
    intro a ha
    simpa using hnone a ha
  rw [hjoin, hempty]
  rfl

/-- Instance of C4 with a post to which no activity refers. -/
theorem activity_types_joined_witness :
    (∀ a ∈ ([⟨2, "post_created", some 3⟩] : List Activity), a.reference_id ≠ some 2)
      ∧ (feedItem [⟨2, "post_created", some 3⟩] ⟨2, "short", 1, 0⟩).activity_types = "" :=
  ⟨by decide,
   (activity_types_joined [⟨2, "post_created", some 3⟩] ⟨2, "short", 1, 0⟩).2.1 (by decide)⟩

/-! ## Truncation of the content -/

/-- C5 as stated fails: a post whose content is "short" (5 characters) is
emitted with content "short...", not with its content unchanged. -/
theorem short_content_is_marked :
    ¬ ∀ (activities : List Activity) (post : Post),
        (post.content.length ≤ 50 → (feedItem activities post).content = post.content)
          ∧ (50 < post.content.length → (feedItem activities post).content
              = String.mk (post.content.data.take 50) ++ "...") := by
  intro h
  have h1 := (h [] ⟨2, "short", 1, 0⟩).1 (by decide)
  revert h1
  decide

/-- C5, amended: the content emitted is the first 50 characters of the
original (the whole original when it has at most 50) followed by "...", whatever
the length of the original. -/
theorem content_prefix_then_marker (activities : List Activity) (post : Post) :
    (feedItem activities post).content
      = (if post.content.length ≤ 50 then post.content
          else String.mk (post.content.data.take 50)) ++ "..." := by
  show truncateContent post.content = _
  apply String.ext
  rw [truncateContent_data]
  by_cases hlen : post.content.length ≤ 50
  · have htake : post.content.data.take 50 = post.content.data :=
      List.take_of_length_le hlen
    simp [hlen, htake]
  · simp [hlen]

/-- C6 as stated fails: truncating "a" gives "a...", and truncating that gives
"a......". -/
theorem truncate_twice_differs :
    ¬ ∀ s : String, truncateContent (truncateContent s) = truncateContent s := by
  intro h
  have h1 := h "a"
  revert h1
  decide

/-- C6, amended: truncating a second time changes nothing exactly when the
original content has at least 50 characters. -/
theorem truncate_twice_iff (s : String) :
    truncateContent (truncateContent s) = truncateContent s ↔ 50 ≤ s.length := by
  constructor
  · intro h
    have hlen := congrArg String.length h
    rw [truncateContent_length, truncateContent_length] at hlen
    omega
  · intro h
    have h50 : (s.data.take 50).length = 50 := by
      rw [List.length_take]
      exact Nat.min_eq_left h
    apply String.ext
    rw [truncateContent_data, truncateContent_data, List.take_append_of_le_length (by omega),
      List.take_of_length_le (by omega)]

/-! ## Activities without a `reference_id` -/

/-- C7 as stated fails: with an activity that has no `reference_id` the
federation step yields a feed, in which the activity matches no post. -/
theorem missing_reference_not_rejected :
    ¬ ∀ (posts : List Post) (activities : List Activity),
        (∃ a ∈ activities, a.reference_id = none) →
          ∃ e, hybridFeedCompletion posts activities = Except.error e := by
  intro h
  obtain ⟨e, he⟩ := h [⟨1, "x", 1, 0⟩] [⟨1, "post_created", none⟩]
    ⟨⟨1, "post_created", none⟩, by simp, rfl⟩
  simp [hybridFeedCompletion] at he

/-- C7, amended: the federation step yields a feed for every input, and the
feed is the one the input gives once the activities without a `reference_id`
are left out: such an activity matches no post. -/
theorem missing_reference_matches_nothing (posts : List Post) (activities : List Activity) :
    hybridFeedCompletion posts activities
      = Except.ok (hybridFeed posts (activities.filter (fun a => a.reference_id.isSome))) := by
  have hrel : ∀ post : Post,
      relatedActivities (activities.filter (fun a => a.reference_id.isSome)) post
        = relatedActivities activities post := by
    intro post
    unfold relatedActivities
    rw [List.filter_filter]
    congr 1
    funext a
    cases hr : a.reference_id <;> simp [strictEq]
  have hitem : feedItem (activities.filter (fun a => a.reference_id.isSome))
      = feedItem activities := by
    funext post
    simp only [feedItem, hrel]
  simp only [hybridFeedCompletion, hybridFeed, hitem]

/-! ## The connection lifecycle -/

theorem bind_eq {α β : Type} (m : Run α) (f : α → Run β) : (m >>= f) = Run.bind m f := rfl

theorem pure_eq {α : Type} (a : α) : (pure a : Run α) = ⟨Except.ok a, []⟩ := rfl

/-- C8, as the code runs: whenever MySQL accepts the connection and the MongoDB
`connect` rejects with `e`, `runApplication` rejects with `e` without ever
calling `mysqlConn.end()`; the MySQL handle is live at the end and the MongoDB
handle is not. -/
theorem mysql_handle_leaks_when_mongo_fails (w : World) (c : MySqlConnection) (e : JSError)
    (hopen : w.createConnection = Except.ok c) (hconn : w.connect = Except.error e) :
    (runApplication w).outcome = Except.error e
      ∧ Effect.call Call.mysqlEnd ∉ (runApplication w).trace
      ∧ mysqlLive w (runApplication w).trace = true
      ∧ mongoLive w (runApplication w).trace = false := by
  simp [runApplication, initializeDatabases, closeDatabaseConnections, catchFinally, await, log,
    bind_eq, pure_eq, Run.bind, hopen, hconn, mysqlLive, mongoLive, resolved]

/-- The run of C8 on `mongoDownWorld`. -/
theorem mysql_handle_leaks_when_mongo_fails_witness :
    mongoDownWorld.createConnection = Except.ok {}
      ∧ mongoDownWorld.connect = Except.error ⟨"MongoServerSelectionError"⟩
      ∧ (runApplication mongoDownWorld).outcome = Except.error ⟨"MongoServerSelectionError"⟩
      ∧ Effect.call Call.mysqlEnd ∉ (runApplication mongoDownWorld).trace
      ∧ mysqlLive mongoDownWorld (runApplication mongoDownWorld).trace = true
      ∧ mongoLive mongoDownWorld (runApplication mongoDownWorld).trace = false :=
  ⟨rfl, rfl, mysql_handle_leaks_when_mongo_fails mongoDownWorld {} _ rfl rfl⟩

/-- C9, as the code runs: whenever `mysqlConn.end()` rejects with `e`,
`closeDatabaseConnections` with both handles live rejects with `e` right after
that call; `mongoClient.close()` is never called, where the claim has it
attempted all the same. -/
theorem mongo_close_skipped_when_end_fails (w : World) (c : MySqlConnection)
    (m : MongoClient) (e : JSError) (hend : w.mysqlEnd = Except.error e) :
    (closeDatabaseConnections w (some c) (some m)).outcome = Except.error e
      ∧ (closeDatabaseConnections w (some c) (some m)).trace = [Effect.call Call.mysqlEnd]
      ∧ Effect.call Call.mongoClose ∉ (closeDatabaseConnections w (some c) (some m)).trace := by
  simp [closeDatabaseConnections, await, log, bind_eq, pure_eq, Run.bind, hend]

/-- The call of C9 on `endFailsWorld`, and the run of `runApplication` around
it, which ends with the MongoDB handle live. -/
theorem mongo_close_skipped_when_end_fails_witness :
    endFailsWorld.mysqlEnd = Except.error ⟨"PROTOCOL_CONNECTION_LOST"⟩
      ∧ ((closeDatabaseConnections endFailsWorld (some {}) (some {})).outcome
            = Except.error ⟨"PROTOCOL_CONNECTION_LOST"⟩
          ∧ (closeDatabaseConnections endFailsWorld (some {}) (some {})).trace
              = [Effect.call Call.mysqlEnd]
          ∧ Effect.call Call.mongoClose
              ∉ (closeDatabaseConnections endFailsWorld (some {}) (some {})).trace)
      ∧ Effect.call Call.mongoClose ∉ (runApplication endFailsWorld).trace
      ∧ mongoLive endFailsWorld (runApplication endFailsWorld).trace = true :=
  ⟨rfl, mongo_close_skipped_when_end_fails endFailsWorld {} {} _ rfl, by decide, by decide⟩

theorem initializeDatabases_resolved (w : World) (c : MySqlConnection)
    (hopen : w.createConnection = Except.ok c) (hconn : w.connect = Except.ok ()) :
    initializeDatabases w
      = ⟨Except.ok (c, {}),
          [Effect.call Call.createConnection, Effect.log "✅ MySQL connected successfully",
            Effect.call Call.connect, Effect.log "✅ MongoDB connected successfully"]⟩ := by
  simp [initializeDatabases, await, log, bind_eq, pure_eq, Run.bind, hopen, hconn]

/-- The queries never release a handle. -/
theorem executeHybridQueries_no_release (w : World) (c : MySqlConnection) (d : Db) :
    (executeHybridQueries w c d).trace.filter isRelease = [] := by
  cases h1 : w.timeline <;> cases h2 : w.metrics <;> cases h3 : w.activities <;>
    cases h4 : w.darkThemeUsers <;> cases h5 : w.posts <;>
    simp [executeHybridQueries, getUserTimeline, getPostEngagementMetrics, getUserActivityFeed,
      searchUserPreferences, getHybridUserFeed, hybridFeedCompletion, completion, await, log,
      table, feedTable, bind_eq, pure_eq, Run.bind, h1, h2, h3, h4, h5, isRelease, List.filter]
  rename_i ps
  cases h6 : w.find (List.map (fun post : Post => post.id) ps) <;>
    simp [h6, isRelease, List.filter]

/-- An error of `executeHybridQueries` is the error of one of its six driver
calls. -/
theorem executeHybridQueries_error_origin (w : World) (c : MySqlConnection) (d : Db)
    (e : JSError) (h : (executeHybridQueries w c d).outcome = Except.error e) :
    w.timeline = Except.error e ∨ w.metrics = Except.error e ∨ w.activities = Except.error e
      ∨ w.darkThemeUsers = Except.error e ∨ w.posts = Except.error e
      ∨ ∃ ps, w.posts = Except.ok ps
          ∧ w.find (ps.map (fun post : Post => post.id)) = Except.error e := by
  revert h
  cases h1 : w.timeline <;> cases h2 : w.metrics <;> cases h3 : w.activities <;>
    cases h4 : w.darkThemeUsers <;> cases h5 : w.posts <;>
    simp [executeHybridQueries, getUserTimeline, getPostEngagementMetrics, getUserActivityFeed,
      searchUserPreferences, getHybridUserFeed, hybridFeedCompletion, completion, await, log,
      table, feedTable, bind_eq, pure_eq, Run.bind, h1, h2, h3, h4, h5]
  all_goals try (intro h; simp [h])
  rename_i ps
  cases h6 : w.find (List.map (fun post : Post => post.id) ps) <;> simp [h6]

/-- C10: when both connections were opened, `executeHybridQueries` rejects
with `e` (the error of one of its driver calls) and both release calls resolve,
`runApplication` calls `mysqlConn.end()` and then `mongoClient.close()`, once
each and after the last query, holds no handle at the end, and rejects with
`e`. -/
theorem teardown_on_query_failure (w : World) (c : MySqlConnection) (e : JSError)
    (hopen : w.createConnection = Except.ok c) (hconn : w.connect = Except.ok ())
    (hquery : (executeHybridQueries w c (MongoClient.db {})).outcome = Except.error e)
    (hend : w.mysqlEnd = Except.ok ()) (hclose : w.mongoClose = Except.ok ()) :
    (runApplication w).outcome = Except.error e
      ∧ (runApplication w).trace
          = (initializeDatabases w).trace
              ++ (executeHybridQueries w c (MongoClient.db {})).trace
              ++ [Effect.error "❌ Application error:" e,
                  Effect.call Call.mysqlEnd, Effect.log "🔌 MySQL connection closed",
                  Effect.call Call.mongoClose, Effect.log "🔌 MongoDB connection closed",
                  Effect.log "🏁 Application finished successfully"]
      ∧ (runApplication w).trace.filter isRelease
          = [Effect.call Call.mysqlEnd, Effect.call Call.mongoClose]
      ∧ mysqlLive w (runApplication w).trace = false
      ∧ mongoLive w (runApplication w).trace = false
      ∧ (w.timeline = Except.error e ∨ w.metrics = Except.error e
          ∨ w.activities = Except.error e ∨ w.darkThemeUsers = Except.error e
          ∨ w.posts = Except.error e
          ∨ ∃ ps, w.posts = Except.ok ps
              ∧ w.find (ps.map (fun post : Post => post.id)) = Except.error e) := by
  have hinit := initializeDatabases_resolved w c hopen hconn
  have hclean : closeDatabaseConnections w (some c) (some {})
      = ⟨Except.ok (),
          [Effect.call Call.mysqlEnd, Effect.log "🔌 MySQL connection closed",
            Effect.call Call.mongoClose, Effect.log "🔌 MongoDB connection closed",
            Effect.log "🏁 Application finished successfully"]⟩ := by
    simp [closeDatabaseConnections, await, log, bind_eq, pure_eq, Run.bind, hend, hclose]
  have hrun : runApplication w
      = ⟨Except.error e,
          (initializeDatabases w).trace
            ++ (executeHybridQueries w c (MongoClient.db {})).trace
            ++ [Effect.error "❌ Application error:" e,
                Effect.call Call.mysqlEnd, Effect.log "🔌 MySQL connection closed",
                Effect.call Call.mongoClose, Effect.log "🔌 MongoDB connection closed",
                Effect.log "🏁 Application finished successfully"]⟩ := by
    simp [runApplication, hinit, hclean, catchFinally, hquery]
  have hnorel := executeHybridQueries_no_release w c (MongoClient.db {})
  refine ⟨by rw [hrun], by rw [hrun], ?_, ?_, ?_,
    executeHybridQueries_error_origin w c _ e hquery⟩
  · rw [hrun, hinit, List.filter_append, List.filter_append, hnorel]
    simp [isRelease, List.filter]
  · rw [hrun, hinit]
    simp [mysqlLive, resolved, hopen, hend]
  · rw [hrun, hinit]
    simp [mongoLive, resolved, hconn, hclose]

/-- The run of C10 on `metricsFailWorld`. -/
theorem teardown_on_query_failure_witness :
    metricsFailWorld.createConnection = Except.ok {}
      ∧ metricsFailWorld.connect = Except.ok ()
      ∧ (executeHybridQueries metricsFailWorld {} (MongoClient.db {})).outcome
          = Except.error ⟨"ER_NO_SUCH_TABLE"⟩
      ∧ metricsFailWorld.mysqlEnd = Except.ok ()
      ∧ metricsFailWorld.mongoClose = Except.ok ()
      ∧ (runApplication metricsFailWorld).outcome = Except.error ⟨"ER_NO_SUCH_TABLE"⟩
      ∧ (runApplication metricsFailWorld).trace.filter isRelease
          = [Effect.call Call.mysqlEnd, Effect.call Call.mongoClose] :=
  ⟨rfl, rfl, rfl, rfl, rfl,
   (teardown_on_query_failure metricsFailWorld {} ⟨"ER_NO_SUCH_TABLE"⟩ rfl rfl rfl rfl rfl).1,
   (teardown_on_query_failure metricsFailWorld {} ⟨"ER_NO_SUCH_TABLE"⟩
      rfl rfl rfl rfl rfl).2.2.1⟩

end HybridApp
